import Mathlib

/-!
Shallow embedding of `ersilia/api/commands/serve.py` (the `serve` function),
together with theorems checking the specification's claims against it.

External collaborators (`ErsiliaModel`, `SetupRedis`, `register_model_session`,
`OutputSource`) are not part of the source tree; they are modelled as an
abstract environment (`Env`) describing the observable facts the collaborators
report, and an effect log (`Effect`) describing the calls `serve` issues to
them, in order.
-/

set_option maxHeartbeats 1000000

namespace Ersilia

/-- The `OutputSource` enum from `ersilia.store.utils` (external to the source
tree); only the three members referenced by `serve.py` are modelled, as
distinct abstract tags.  The spec's `CacheSource` value "unset" corresponds to
the Python value `None`, i.e. to `Option.none` over this type. -/
inductive OutputSource where
  | LOCAL_ONLY
  | CLOUD_ONLY
  | CACHE_ONLY
deriving DecidableEq, Repr

/-- The caller-supplied arguments of `serve` (lines 6-15 of `serve.py`), with
the same names.  `max_cache_memory_frac` is a Python float; it is embedded as
an exact rational, which preserves the comparisons with 0.2 and 0.7. -/
structure Request where
  model : String
  port : Option Int
  track : Bool
  tracking_use_case : String
  enable_local_cache : Bool
  local_cache_only : Bool
  cloud_cache_only : Bool
  cache_only : Bool
  max_cache_memory_frac : Option ℚ
deriving DecidableEq

/-- Observable behaviour of the external collaborators during one call:
what `ErsiliaModel` reports (`is_valid`, and after `mdl.serve()` the
attributes `url`, `model_id`, `session._session_dir`, `scl`, `get_apis()`)
and what `SetupRedis._is_amenable()[0]` reports. -/
structure Env where
  is_valid : Bool
  url : Option String
  model_id : String
  session_dir : String
  scl : String
  apis : List String
  is_amenable : Bool
deriving DecidableEq

/-- The calls `serve` issues to its collaborators, in order:
construction of `ErsiliaModel(model, output_source, preferred_port, cache,
maxmemory)`, construction of `SetupRedis(enable_local_cache,
max_cache_memory_frac)`, the blocking `mdl.serve(track_runs)` call, and
`register_model_session(model_id, session_dir)`. -/
inductive Effect where
  | constructModel (model : String) (output_source : Option OutputSource)
      (preferred_port : Option Int) (cache : Bool) (maxmemory : Option ℚ)
  | setupRedis (enable_local_cache : Bool) (max_cache_memory_frac : Option ℚ)
  | serveCall (track_runs : Option String)
  | registerSession (model_id : String) (session_dir : String)
deriving DecidableEq

/-- The three failure kinds of `serve.py`.  The Python code raises
`RuntimeError` at three distinct sites with three distinct messages; the
constructors tag the raise site (the spec's `ConfigurationError`,
`ModelNotFoundError`, `ServeFailedError`) and carry the message verbatim. -/
inductive ServeError where
  | configurationError (msg : String)
  | modelNotFoundError (msg : String)
  | serveFailedError (msg : String)
deriving DecidableEq

/-- Message of the `raise RuntimeError` at line 37 of `serve.py`. -/
def configurationErrorMsg : String :=
  "Maximum fraction of memory to use by Redis for caching is outside of recommended range (0.2–0.7)."

/-- Message of the `raise RuntimeError` at line 67 of `serve.py`
(`f"Model {mdl.model_id} is not valid or not found."`). -/
def modelNotFoundErrorMsg (model_id : String) : String :=
  "Model " ++ model_id ++ " is not valid or not found."

/-- Message of the `raise RuntimeError` at line 76 of `serve.py`. -/
def serveFailedErrorMsg : String :=
  "No URL found. Service unsuccessful."

/-- A value of the Python result dictionary: a string, a list of strings, or
`None`. -/
inductive Value where
  | vStr (s : String)
  | vList (l : List String)
  | vNull
deriving DecidableEq

/-- The triple of mutable locals (`output_source`, `enable_local_cache`,
`cache_status`) after the cache-toggle cascade; the spec's `CacheResolution`. -/
structure CacheResolution where
  source : Option OutputSource
  localCacheEnabled : Bool
  status : String
deriving DecidableEq

/-- Lines 41-54 of `serve.py`: the three sequential (non-exclusive) `if`
statements over the cache toggles, updating the locals `output_source`,
`enable_local_cache` and `cache_status`. -/
def resolveCache (local_cache_only cloud_cache_only cache_only : Bool)
    (enable_local_cache : Bool) : CacheResolution :=
  let output_source : Option OutputSource := none
  let cache_status : String := "Disabled"
  let output_source := if local_cache_only then some OutputSource.LOCAL_ONLY else output_source
  let enable_local_cache := if local_cache_only then true else enable_local_cache
  let cache_status := if local_cache_only then "Local only" else cache_status
  let output_source := if cloud_cache_only then some OutputSource.CLOUD_ONLY else output_source
  let cache_status := if cloud_cache_only then "Cloud only" else cache_status
  let output_source := if cache_only then some OutputSource.CACHE_ONLY else output_source
  let enable_local_cache := if cache_only then true else enable_local_cache
  let cache_status := if cache_only then "Hybrid (local & cloud)" else cache_status
  ⟨output_source, enable_local_cache, cache_status⟩

/-- The resolution policy as written in §4.2 of the spec: four numbered steps
in the fixed order local-only, cloud-only, cache-only, each unconditionally
overwriting the previous result when its guard is true.  Written from the
spec's words, to be compared with `resolveCache` (written from the source). -/
def resolveCacheSpec (local_cache_only cloud_cache_only cache_only : Bool)
    (baseline : Bool) : CacheResolution :=
  let step1 : CacheResolution :=
    { source := none, localCacheEnabled := baseline, status := "Disabled" }
  let step2 :=
    if local_cache_only then
      { step1 with source := some OutputSource.LOCAL_ONLY,
                   localCacheEnabled := true, status := "Local only" }
    else step1
  let step3 :=
    if cloud_cache_only then
      { step2 with source := some OutputSource.CLOUD_ONLY, status := "Cloud only" }
    else step2
  let step4 :=
    if cache_only then
      { step3 with source := some OutputSource.CACHE_ONLY,
                   localCacheEnabled := true, status := "Hybrid (local & cloud)" }
    else step3
  step4

/-- Lines 81-86 of `serve.py`: `additional_apis` is `None` when the list of
APIs is exactly `["run"]`, and otherwise the loop appending every API other
than `"run"`, in order. -/
def additionalApis (apis : List String) : Option (List String) :=
  if apis = ["run"] then none
  else some (apis.foldl (fun acc api => if api ≠ "run" then acc ++ [api] else acc) [])

/-- Embeds a Python `Optional[List[str]]` value of the result dictionary. -/
def optListValue : Option (List String) → Value
  | none => Value.vNull
  | some l => Value.vList l

/-- Lines 89-99 of `serve.py`: the returned dictionary, with its keys in
source order.  `u` is the (non-`None`) `mdl.url`, `r` the cache resolution. -/
def assembleResult (req : Request) (env : Env) (r : CacheResolution) (u : String) :
    List (String × Value) :=
  [("Model ID", Value.vStr env.model_id),
   ("URL", Value.vStr u),
   ("SRV", Value.vStr env.scl),
   ("Session", Value.vStr env.session_dir),
   ("Cache Fetching Mode", Value.vStr r.status),
   ("Local Cache", Value.vStr (if env.is_amenable then "Enabled" else "Disabled")),
   ("Tracking", Value.vStr (if req.track then "Enabled" else "Disabled")),
   ("Default API", Value.vStr "run"),
   ("Additional APIs", optListValue (additionalApis env.apis))]

/-- Lines 57-99 of `serve.py`: everything after the memory-fraction guard.
Constructs the model handle and the Redis setup object, checks validity,
computes `track_runs`, issues the blocking `mdl.serve` call, checks the URL,
registers the session and assembles the result.  The first component is the
ordered log of collaborator calls; the second the raised error or the
returned dictionary. -/
def serveBody (req : Request) (env : Env) :
    List Effect × Except ServeError (List (String × Value)) :=
  let r := resolveCache req.local_cache_only req.cloud_cache_only req.cache_only
    req.enable_local_cache
  let constructEffs : List Effect :=
    [Effect.constructModel req.model r.source req.port r.localCacheEnabled
       req.max_cache_memory_frac,
     Effect.setupRedis r.localCacheEnabled req.max_cache_memory_frac]
  if env.is_valid then
    let track_runs : Option String := if req.track then some req.tracking_use_case else none
    let serveEffs := constructEffs ++ [Effect.serveCall track_runs]
    match env.url with
    | none => (serveEffs, Except.error (ServeError.serveFailedError serveFailedErrorMsg))
    | some u =>
        (serveEffs ++ [Effect.registerSession env.model_id env.session_dir],
         Except.ok (assembleResult req env r u))
  else
    (constructEffs, Except.error (ServeError.modelNotFoundError
      (modelNotFoundErrorMsg env.model_id)))

/-- The `serve` function of `serve.py`: the memory-fraction guard of lines
35-39 (`if not (0.2 <= max_cache_memory_frac <= 0.7): raise`) followed by the
body. -/
def serve (req : Request) (env : Env) :
    List Effect × Except ServeError (List (String × Value)) :=
  match req.max_cache_memory_frac with
  | some f =>
      if ¬ ((0.2 : ℚ) ≤ f ∧ f ≤ (0.7 : ℚ)) then
        ([], Except.error (ServeError.configurationError configurationErrorMsg))
      else serveBody req env
  | none => serveBody req env

/-- Looks a key up in the result dictionary. -/
def getField (r : List (String × Value)) (k : String) : Option Value :=
  (r.find? (fun p => p.1 == k)).map Prod.snd

/-- The memory-fraction guard of lines 35-39 as a boolean: `true` iff the
fraction is absent or within `[0.2, 0.7]` (i.e. no error is raised). -/
def fracOk (o : Option ℚ) : Bool :=
  match o with
  | none => true
  | some f => decide ((0.2 : ℚ) ≤ f ∧ f ≤ (0.7 : ℚ))

/-- The dictionary returned by `serve`, when it returns one. -/
def serveResult (req : Request) (env : Env) : Option (List (String × Value)) :=
  match (serve req env).2 with
  | Except.ok r => some r
  | Except.error _ => none

/-- A field of the dictionary returned by `serve`, when it returns one. -/
def resultField (req : Request) (env : Env) (k : String) : Option Value :=
  (serveResult req env).bind (fun r => getField r k)

end Ersilia

namespace Ersilia

lemma serve_eq_serveBody (req : Request) (env : Env)
    (h : fracOk req.max_cache_memory_frac = true) :
    serve req env = serveBody req env := by
  unfold serve
  cases ho : req.max_cache_memory_frac with
  | none => rfl
  | some f =>
      rw [ho] at h
      simp only [fracOk, decide_eq_true_eq] at h
      simp [h]

lemma serveBody_invalid (req : Request) (env : Env) (hv : env.is_valid = false) :
    serveBody req env =
      ([Effect.constructModel req.model
          (resolveCache req.local_cache_only req.cloud_cache_only req.cache_only
            req.enable_local_cache).source
          req.port
          (resolveCache req.local_cache_only req.cloud_cache_only req.cache_only
            req.enable_local_cache).localCacheEnabled
          req.max_cache_memory_frac,
        Effect.setupRedis
          (resolveCache req.local_cache_only req.cloud_cache_only req.cache_only
            req.enable_local_cache).localCacheEnabled
          req.max_cache_memory_frac],
       Except.error (ServeError.modelNotFoundError (modelNotFoundErrorMsg env.model_id))) := by
  unfold serveBody
  rw [hv]
  simp

lemma serveBody_noUrl (req : Request) (env : Env)
    (hv : env.is_valid = true) (hu : env.url = none) :
    serveBody req env =
      ([Effect.constructModel req.model
          (resolveCache req.local_cache_only req.cloud_cache_only req.cache_only
            req.enable_local_cache).source
          req.port
          (resolveCache req.local_cache_only req.cloud_cache_only req.cache_only
            req.enable_local_cache).localCacheEnabled
          req.max_cache_memory_frac,
        Effect.setupRedis
          (resolveCache req.local_cache_only req.cloud_cache_only req.cache_only
            req.enable_local_cache).localCacheEnabled
          req.max_cache_memory_frac,
        Effect.serveCall (if req.track then some req.tracking_use_case else none)],
       Except.error (ServeError.serveFailedError serveFailedErrorMsg)) := by
  unfold serveBody
  rw [hv, hu]
  simp

lemma serveBody_ok (req : Request) (env : Env)
    (hv : env.is_valid = true) (u : String) (hu : env.url = some u) :
    serveBody req env =
      ([Effect.constructModel req.model
          (resolveCache req.local_cache_only req.cloud_cache_only req.cache_only
            req.enable_local_cache).source
          req.port
          (resolveCache req.local_cache_only req.cloud_cache_only req.cache_only
            req.enable_local_cache).localCacheEnabled
          req.max_cache_memory_frac,
        Effect.setupRedis
          (resolveCache req.local_cache_only req.cloud_cache_only req.cache_only
            req.enable_local_cache).localCacheEnabled
          req.max_cache_memory_frac,
        Effect.serveCall (if req.track then some req.tracking_use_case else none),
        Effect.registerSession env.model_id env.session_dir],
       Except.ok (assembleResult req env
         (resolveCache req.local_cache_only req.cloud_cache_only req.cache_only
           req.enable_local_cache) u)) := by
  unfold serveBody
  rw [hv, hu]
  simp

lemma serveBody_no_config (req : Request) (env : Env) (msg : String) :
    (serveBody req env).2 ≠ Except.error (ServeError.configurationError msg) := by
  cases hv : env.is_valid with
  | false => rw [serveBody_invalid req env hv]; simp
  | true =>
      cases hu : env.url with
      | none => rw [serveBody_noUrl req env hv hu]; simp
      | some u => rw [serveBody_ok req env hv u hu]; simp

/-- C2: the serve call passes the memory-fraction validation iff the fraction
is absent or within `[0.2, 0.7]` inclusive; equivalently, it fails with the
configuration error (whose message describes the recommended range 0.2–0.7)
iff the fraction is present and outside that range. -/
theorem memory_fraction_validation (req : Request) (env : Env) :
    (serve req env).2 =
      Except.error (ServeError.configurationError configurationErrorMsg)
    ↔ ∃ f, req.max_cache_memory_frac = some f ∧
        ¬ ((0.2 : ℚ) ≤ f ∧ f ≤ (0.7 : ℚ)) := by
  constructor
  · intro h
    unfold serve at h
    cases ho : req.max_cache_memory_frac with
    | none =>
        rw [ho] at h
        exact absurd h (serveBody_no_config req env _)
    | some f =>
        rw [ho] at h
        by_cases hr : (0.2 : ℚ) ≤ f ∧ f ≤ (0.7 : ℚ)
        · simp only [hr, not_true_eq_false, if_false] at h
          exact absurd h (serveBody_no_config req env _)
        · exact ⟨f, rfl, hr⟩
  · rintro ⟨f, hf, hr⟩
    unfold serve
    rw [hf]
    simp [hr]

/-- C8: when the memory fraction is present and out of range, the
configuration error is raised before any side effect: the effect log is
empty (no model handle constructed, no Redis setup, no serve call, no
session registration) and no result is returned. -/
theorem out_of_range_fraction_pure (req : Request) (env : Env) (f : ℚ)
    (hf : req.max_cache_memory_frac = some f)
    (hr : ¬ ((0.2 : ℚ) ≤ f ∧ f ≤ (0.7 : ℚ))) :
    serve req env =
      ([], Except.error (ServeError.configurationError configurationErrorMsg)) := by
  unfold serve
  rw [hf]
  simp [hr]

/-- A request with an out-of-range memory fraction (0.9). -/
def reqOutOfRange : Request :=
  ⟨"eos3b5e", none, false, "local", true, false, false, false, some (9 / 10)⟩

/-- A collaborator environment for a valid model serving successfully. -/
def envOk : Env :=
  ⟨true, some "http://0.0.0.0:3000", "eos3b5e", "/sessions/eos3b5e", "pulled_docker",
   ["run"], true⟩

theorem out_of_range_fraction_pure_witness :
    serve reqOutOfRange envOk =
      ([], Except.error (ServeError.configurationError configurationErrorMsg)) :=
  out_of_range_fraction_pure reqOutOfRange envOk (9 / 10) rfl (by norm_num)

lemma getField_defaultApi (req : Request) (env : Env) (r : CacheResolution) (u : String) :
    getField (assembleResult req env r u) "Default API" = some (Value.vStr "run") := rfl

lemma getField_additionalApis (req : Request) (env : Env) (r : CacheResolution) (u : String) :
    getField (assembleResult req env r u) "Additional APIs" =
      some (optListValue (additionalApis env.apis)) := rfl

lemma getField_tracking (req : Request) (env : Env) (r : CacheResolution) (u : String) :
    getField (assembleResult req env r u) "Tracking" =
      some (Value.vStr (if req.track then "Enabled" else "Disabled")) := rfl

lemma getField_localCache (req : Request) (env : Env) (r : CacheResolution) (u : String) :
    getField (assembleResult req env r u) "Local Cache" =
      some (Value.vStr (if env.is_amenable then "Enabled" else "Disabled")) := rfl

lemma getField_cacheMode (req : Request) (env : Env) (r : CacheResolution) (u : String) :
    getField (assembleResult req env r u) "Cache Fetching Mode" =
      some (Value.vStr r.status) := rfl

lemma serveResult_ok (req : Request) (env : Env)
    (hfrac : fracOk req.max_cache_memory_frac = true)
    (hv : env.is_valid = true) (u : String) (hu : env.url = some u) :
    serveResult req env =
      some (assembleResult req env
        (resolveCache req.local_cache_only req.cloud_cache_only req.cache_only
          req.enable_local_cache) u) := by
  unfold serveResult
  rw [serve_eq_serveBody req env hfrac, serveBody_ok req env hv u hu]

lemma foldl_keep_eq_filter (l acc : List String) :
    l.foldl (fun acc api => if api ≠ "run" then acc ++ [api] else acc) acc
      = acc ++ l.filter (fun a => a != "run") := by
  induction l generalizing acc with
  | nil => simp
  | cons x xs ih =>
      rw [List.foldl_cons, ih, List.filter_cons]
      by_cases h : x = "run"
      · simp [h]
      · simp [h]

lemma additionalApis_eq_filter (apis : List String) :
    additionalApis apis =
      if apis = ["run"] then none else some (apis.filter (fun a => a != "run")) := by
  unfold additionalApis
  by_cases h : apis = ["run"]
  · simp [h]
  · rw [if_neg h, if_neg h, foldl_keep_eq_filter apis []]
    simp

/-- C3: when the external serve step succeeds but the session's URL is
absent, the call fails with the serve-failed error ("No URL found. Service
unsuccessful."), no session registration is performed, and no result is
returned. -/
theorem no_url_serve_failed (req : Request) (env : Env)
    (hfrac : fracOk req.max_cache_memory_frac = true)
    (hv : env.is_valid = true) (hu : env.url = none) :
    (serve req env).2 = Except.error (ServeError.serveFailedError serveFailedErrorMsg) ∧
    (∀ m d, Effect.registerSession m d ∉ (serve req env).1) ∧
    serveResult req env = none := by
  have hs := serve_eq_serveBody req env hfrac
  have h := serveBody_noUrl req env hv hu
  refine ⟨by rw [hs, h], ?_, ?_⟩
  · intro m d
    rw [hs, h]
    simp
  · unfold serveResult
    rw [hs, h]

/-- Environment of a valid model whose serve step yields no URL. -/
def envNoUrl : Env :=
  ⟨true, none, "eos3b5e", "/sessions/eos3b5e", "pulled_docker", ["run"], true⟩

/-- A baseline request with default argument values. -/
def reqBase : Request :=
  ⟨"eos3b5e", none, false, "local", true, false, false, false, none⟩

theorem no_url_serve_failed_witness :
    (serve reqBase envNoUrl).2 =
      Except.error (ServeError.serveFailedError serveFailedErrorMsg) ∧
    Effect.registerSession "eos3b5e" "/sessions/eos3b5e" ∉ (serve reqBase envNoUrl).1 ∧
    serveResult reqBase envNoUrl = none :=
  ⟨(no_url_serve_failed reqBase envNoUrl rfl rfl rfl).1,
   (no_url_serve_failed reqBase envNoUrl rfl rfl rfl).2.1 "eos3b5e" "/sessions/eos3b5e",
   (no_url_serve_failed reqBase envNoUrl rfl rfl rfl).2.2⟩

/-- C4: when the constructed model handle reports invalid, the call fails
with the model-not-found error naming the requested model identifier, the
server is never started (no serve call is issued), and no session is
registered. -/
theorem invalid_model_not_found (req : Request) (env : Env)
    (hfrac : fracOk req.max_cache_memory_frac = true)
    (hv : env.is_valid = false) (hid : env.model_id = req.model) :
    (serve req env).2 =
      Except.error (ServeError.modelNotFoundError (modelNotFoundErrorMsg req.model)) ∧
    (∀ t, Effect.serveCall t ∉ (serve req env).1) ∧
    (∀ m d, Effect.registerSession m d ∉ (serve req env).1) := by
  have hs := serve_eq_serveBody req env hfrac
  have h := serveBody_invalid req env hv
  refine ⟨by rw [hs, h, hid], ?_, ?_⟩
  · intro t
    rw [hs, h]
    simp
  · intro m d
    rw [hs, h]
    simp

/-- Environment of an invalid (not found) model handle. -/
def envInvalid : Env :=
  ⟨false, none, "eos3b5e", "", "", [], false⟩

theorem invalid_model_not_found_witness :
    (serve reqBase envInvalid).2 =
      Except.error (ServeError.modelNotFoundError (modelNotFoundErrorMsg "eos3b5e")) ∧
    Effect.serveCall none ∉ (serve reqBase envInvalid).1 ∧
    Effect.registerSession "eos3b5e" "" ∉ (serve reqBase envInvalid).1 :=
  ⟨(invalid_model_not_found reqBase envInvalid rfl rfl rfl).1,
   (invalid_model_not_found reqBase envInvalid rfl rfl rfl).2.1 none,
   (invalid_model_not_found reqBase envInvalid rfl rfl rfl).2.2 "eos3b5e" ""⟩

/-- C5: on every successful serve call the "Default API" field is "run"; if
the model's exposed operations list equals exactly `["run"]` then
"Additional APIs" is the absent value (`None`), and otherwise it is the
subsequence of every operation name other than "run", in source order. -/
theorem api_surface_reporting (req : Request) (env : Env)
    (hfrac : fracOk req.max_cache_memory_frac = true)
    (hv : env.is_valid = true) (u : String) (hu : env.url = some u) :
    (serveResult req env).isSome = true ∧
    resultField req env "Default API" = some (Value.vStr "run") ∧
    (env.apis = ["run"] → resultField req env "Additional APIs" = some Value.vNull) ∧
    (env.apis ≠ ["run"] →
      resultField req env "Additional APIs" =
        some (Value.vList (env.apis.filter (fun a => a != "run")))) := by
  have hres := serveResult_ok req env hfrac hv u hu
  refine ⟨by rw [hres]; rfl, ?_, ?_, ?_⟩
  · unfold resultField
    rw [hres]
    simp [getField_defaultApi]
  · intro hrun
    unfold resultField
    rw [hres]
    simp only [Option.some_bind, getField_additionalApis]
    rw [additionalApis_eq_filter, if_pos hrun]
    rfl
  · intro hrun
    unfold resultField
    rw [hres]
    simp only [Option.some_bind, getField_additionalApis]
    rw [additionalApis_eq_filter, if_neg hrun]
    rfl

/-- Environment of a valid model exposing the operations run and info. -/
def envTwoApis : Env :=
  ⟨true, some "http://0.0.0.0:3000", "eos3b5e", "/sessions/eos3b5e", "pulled_docker",
   ["run", "info"], true⟩

theorem api_surface_reporting_witness :
    (serveResult reqBase envTwoApis).isSome = true ∧
    resultField reqBase envTwoApis "Default API" = some (Value.vStr "run") ∧
    resultField reqBase envTwoApis "Additional APIs" = some (Value.vList ["info"]) := by
  have h := api_surface_reporting reqBase envTwoApis rfl rfl "http://0.0.0.0:3000" rfl
  refine ⟨h.1, h.2.1, ?_⟩
  have h2 := h.2.2.2 (by decide)
  simpa using h2

/-- C6: on every successful serve call, "Tracking" in the result is
"Enabled" iff the caller's track flag was true (independently of the
tracking use case), and the serve step receives exactly the unmodified
tracking use case when track is true and no use case value otherwise. -/
theorem tracking_reporting (req : Request) (env : Env)
    (hfrac : fracOk req.max_cache_memory_frac = true)
    (hv : env.is_valid = true) (u : String) (hu : env.url = some u) :
    (resultField req env "Tracking" = some (Value.vStr "Enabled") ↔ req.track = true) ∧
    (∀ t, Effect.serveCall t ∈ (serve req env).1 ↔
        t = (if req.track then some req.tracking_use_case else none)) := by
  have hres := serveResult_ok req env hfrac hv u hu
  constructor
  · unfold resultField
    rw [hres]
    simp only [Option.some_bind, getField_tracking]
    cases ht : req.track
    · simp
    · simp
  · intro t
    rw [serve_eq_serveBody req env hfrac, serveBody_ok req env hv u hu]
    simp

/-- A request asking for tracking with the hosted use case. -/
def reqTrack : Request :=
  ⟨"eos3b5e", none, true, "hosted", true, false, false, false, none⟩

theorem tracking_reporting_witness :
    (resultField reqTrack envOk "Tracking" = some (Value.vStr "Enabled") ↔
      reqTrack.track = true) ∧
    (Effect.serveCall (some "hosted") ∈ (serve reqTrack envOk).1 ↔
      some "hosted" = (if reqTrack.track then some reqTrack.tracking_use_case else none)) :=
  ⟨(tracking_reporting reqTrack envOk rfl rfl "http://0.0.0.0:3000" rfl).1,
   (tracking_reporting reqTrack envOk rfl rfl "http://0.0.0.0:3000" rfl).2 (some "hosted")⟩

/-- A request with only the cache-only toggle set (hybrid cache mode). -/
def reqHybrid : Request :=
  ⟨"eos3b5e", none, false, "local", false, false, false, true, none⟩

/-- Environment of a valid model serving successfully while the Redis
backend reports not amenable. -/
def envNotAmenable : Env :=
  ⟨true, some "http://0.0.0.0:3000", "eos3b5e", "/sessions/eos3b5e", "pulled_docker",
   ["run"], false⟩

/-- C7: on every successful serve call, "Local Cache" in the result is
"Enabled" iff the cache backend reports amenable, independently of the
resolved local-cache-enabled flag; on a concrete input the two disagree
and both are surfaced unreconciled ("Cache Fetching Mode" says hybrid
while "Local Cache" says disabled). -/
theorem local_cache_amenability (req : Request) (env : Env)
    (hfrac : fracOk req.max_cache_memory_frac = true)
    (hv : env.is_valid = true) (u : String) (hu : env.url = some u) :
    resultField req env "Local Cache" =
      some (Value.vStr (if env.is_amenable then "Enabled" else "Disabled")) ∧
    ((serveResult reqHybrid envNotAmenable).isSome = true ∧
     envNotAmenable.is_amenable = false ∧
     (resolveCache reqHybrid.local_cache_only reqHybrid.cloud_cache_only
       reqHybrid.cache_only reqHybrid.enable_local_cache).localCacheEnabled = true ∧
     resultField reqHybrid envNotAmenable "Local Cache" = some (Value.vStr "Disabled") ∧
     resultField reqHybrid envNotAmenable "Cache Fetching Mode" =
       some (Value.vStr "Hybrid (local & cloud)")) := by
  have hres := serveResult_ok req env hfrac hv u hu
  constructor
  · unfold resultField
    rw [hres]
    simp [getField_localCache]
  · have hres2 := serveResult_ok reqHybrid envNotAmenable rfl rfl "http://0.0.0.0:3000" rfl
    refine ⟨by rw [hres2]; rfl, rfl, rfl, ?_, ?_⟩
    · unfold resultField
      rw [hres2]
      rfl
    · unfold resultField
      rw [hres2]
      rfl

theorem local_cache_amenability_witness :
    resultField reqBase envOk "Local Cache" =
      some (Value.vStr (if envOk.is_amenable then "Enabled" else "Disabled")) ∧
    resultField reqHybrid envNotAmenable "Local Cache" = some (Value.vStr "Disabled") ∧
    resultField reqHybrid envNotAmenable "Cache Fetching Mode" =
      some (Value.vStr "Hybrid (local & cloud)") :=
  ⟨(local_cache_amenability reqBase envOk rfl rfl "http://0.0.0.0:3000" rfl).1,
   (local_cache_amenability reqBase envOk rfl rfl "http://0.0.0.0:3000" rfl).2.2.2.2.1,
   (local_cache_amenability reqBase envOk rfl rfl "http://0.0.0.0:3000" rfl).2.2.2.2.2⟩

/-- C9: on a successful serve call whose operations list is not exactly
`["run"]` but contains only "run" elements, "Additional APIs" is the empty
list, which is observably distinct from the absent value. -/
theorem run_duplicates_empty_list (req : Request) (env : Env)
    (hfrac : fracOk req.max_cache_memory_frac = true)
    (hv : env.is_valid = true) (u : String) (hu : env.url = some u)
    (hne : env.apis ≠ ["run"]) (hall : ∀ a ∈ env.apis, a = "run") :
    resultField req env "Additional APIs" = some (Value.vList []) ∧
    Value.vList [] ≠ Value.vNull := by
  have hres := serveResult_ok req env hfrac hv u hu
  refine ⟨?_, by simp⟩
  unfold resultField
  rw [hres]
  simp only [Option.some_bind, getField_additionalApis]
  rw [additionalApis_eq_filter, if_neg hne]
  have hfil : env.apis.filter (fun a => a != "run") = [] := by
    rw [List.filter_eq_nil_iff]
    intro a ha
    simp [hall a ha]
  rw [hfil]
  rfl

/-- Environment of a valid model whose operations list is run twice. -/
def envDupRun : Env :=
  ⟨true, some "http://0.0.0.0:3000", "eos3b5e", "/sessions/eos3b5e", "pulled_docker",
   ["run", "run"], true⟩

theorem run_duplicates_empty_list_witness :
    resultField reqBase envDupRun "Additional APIs" = some (Value.vList []) ∧
    Value.vList [] ≠ Value.vNull :=
  ⟨(run_duplicates_empty_list reqBase envDupRun rfl rfl "http://0.0.0.0:3000" rfl
      (by decide) (by decide)).1,
   (run_duplicates_empty_list reqBase envDupRun rfl rfl "http://0.0.0.0:3000" rfl
      (by decide) (by decide)).2⟩

/-- The ordered list of keys of the dictionary returned by `serve`. -/
def resultKeys (req : Request) (env : Env) : Option (List String) :=
  (serveResult req env).map (fun r => r.map Prod.fst)

/-- C10: every successful serve call returns a mapping with exactly the nine
keys in source order, and "Additional APIs" is always present, carrying the
null value (not omitted) when additional operations are absent. -/
theorem result_shape (req : Request) (env : Env)
    (hfrac : fracOk req.max_cache_memory_frac = true)
    (hv : env.is_valid = true) (u : String) (hu : env.url = some u) :
    resultKeys req env =
      some ["Model ID", "URL", "SRV", "Session", "Cache Fetching Mode",
            "Local Cache", "Tracking", "Default API", "Additional APIs"] ∧
    (env.apis = ["run"] → resultField req env "Additional APIs" = some Value.vNull) := by
  have hres := serveResult_ok req env hfrac hv u hu
  constructor
  · unfold resultKeys
    rw [hres]
    rfl
  · intro hrun
    unfold resultField
    rw [hres]
    simp only [Option.some_bind, getField_additionalApis]
    rw [additionalApis_eq_filter, if_pos hrun]
    rfl

theorem result_shape_witness :
    resultKeys reqBase envOk =
      some ["Model ID", "URL", "SRV", "Session", "Cache Fetching Mode",
            "Local Cache", "Tracking", "Default API", "Additional APIs"] ∧
    resultField reqBase envOk "Additional APIs" = some Value.vNull :=
  ⟨(result_shape reqBase envOk rfl rfl "http://0.0.0.0:3000" rfl).1,
   (result_shape reqBase envOk rfl rfl "http://0.0.0.0:3000" rfl).2 rfl⟩

end Ersilia

namespace Ersilia

/-- The source-side cascade and the spec-side four-step policy agree on every
input. -/
lemma resolveCache_eq_spec (l c k b : Bool) :
    resolveCache l c k b = resolveCacheSpec l c k b := by
  cases l <;> cases c <;> cases k <;> cases b <;> rfl

/-- C1: for every combination of the four cache inputs, the resolved
(source, local-cache-enabled, status label) equals the result of the four
sequential steps of §4.2 applied in the fixed order local-only, cloud-only,
cache-only, last-write-wins; with all three toggles true the outcome is
source = hybrid (CACHE_ONLY), local-cache-enabled = true, status
"Hybrid (local & cloud)"; with none of them the outcome is source = unset,
status "Disabled", local-cache-enabled = the caller's baseline flag. -/
theorem cache_resolver_matches_spec :
    (∀ l c k b : Bool, resolveCache l c k b = resolveCacheSpec l c k b) ∧
    (∀ b : Bool, resolveCache true true true b =
      ⟨some OutputSource.CACHE_ONLY, true, "Hybrid (local & cloud)"⟩) ∧
    (∀ b : Bool, resolveCache false false false b = ⟨none, b, "Disabled"⟩) := by
  refine ⟨resolveCache_eq_spec, ?_, ?_⟩
  · intro b; cases b <;> rfl
  · intro b; cases b <;> rfl

end Ersilia
